import Mathlib

/-!
Shallow embedding of `moodlecurl.py`: a SAML login handshake plus an
HTML-scraping pipeline (courses, resources, downloads) for a Moodle portal.

Modelling conventions:
  * HTML is modelled post-parse: an anchor is its `href` attribute
    (`Option String`, `none` when the attribute is absent) together with the
    texts of its descendant `span` elements in document order.
  * `requests.Session` objects are identified by a `Nat` id; two equal ids
    model the same Python object.
  * Python exceptions that the scraping/auth code can raise are an explicit
    `PyExn`; fallible operations return `Except PyExn`.
  * Python truthiness is modelled explicitly where the source guards a cache
    with `if not self.__x` (`None`, empty list and empty string are falsy;
    a `requests.Response` is falsy iff `ok` is false, per
    `requests.models.Response.__bool__`).
  * Regex use in the source (`re.search` semantics via BeautifulSoup filters
    and `re.findall` for the filename) is compiled to executable character
    list scanners over the concrete patterns appearing in the source.
-/

/-- Python exceptions relevant to the embedded code paths. -/
inductive PyExn where
  | indexError
  | keyError
  | nameError
  | osError (errno : Nat)
  deriving DecidableEq, Repr

/- ----------------------------------------------------------------
   URL constants (`MoodleSession.URL_*`)
   ---------------------------------------------------------------- -/

/-- `MoodleSession.URL_HOME_PAGE`. -/
def URL_HOME_PAGE : String := "https://moodle.concordia.ca/moodle/"

/-- `MoodleSession.URL_DASHBOARD = URL_HOME_PAGE + "my/"`. -/
def URL_DASHBOARD : String := URL_HOME_PAGE ++ "my/"

/- ----------------------------------------------------------------
   Authentication handshake (`MoodleSession.__parse_data_for_second_post`)
   ---------------------------------------------------------------- -/

/-- An `<input>` element of the intermediate handshake page: its `name`
attribute and its `value` attribute, each possibly absent.  `tag.get("value")`
in the source returns `None` for an absent attribute. -/
structure InputTag where
  name : Option String
  value : Option String
  deriving DecidableEq, Repr

/-- The form data for the second POST of the handshake. -/
structure SecondPostData where
  samlResponse : Option String
  relayState : String
  deriving DecidableEq, Repr

/-- `MoodleSession.__parse_data_for_second_post`: takes the list of all
`<input>` elements of the fetched dashboard page (`find_all('input')`),
indexes the first one (`inputs[0]`, raising `IndexError` on an empty list)
and reads its `value` attribute; the input's name is never inspected. -/
def parseDataForSecondPost (inputs : List InputTag) : Except PyExn SecondPostData :=
  match inputs with
  | [] => .error .indexError
  | i :: _ => .ok ⟨i.value, URL_HOME_PAGE⟩

/-- An input element "carrying a SAMLResponse value": named `SAMLResponse`
and actually holding a value. -/
def carriesSamlValue (i : InputTag) : Bool :=
  i.name == some "SAMLResponse" && i.value.isSome

/- ----------------------------------------------------------------
   Directory creation (`Resource.__create_dir_if_not_exists`)
   ---------------------------------------------------------------- -/

/-- Outcome of `Resource.__create_dir_if_not_exists`. -/
inductive FsOutcome where
  | success
  | raised (e : PyExn)
  deriving DecidableEq, Repr

/-- The `errno.EEXIST` value on POSIX systems. -/
def EEXIST : Nat := 17

/-- `Resource.__create_dir_if_not_exists`: `dirExists` models
`os.path.exists(dir)`; `mkdirs` models the outcome of `os.makedirs(dir)`
(`none` for success, `some e` for an `OSError` with that `errno`).

The source's `except OSError` handler compares `e.errno != errno.EEXIST`,
but the module `errno` is never imported anywhere in `moodlecurl.py`, so
evaluating the comparison raises `NameError: name 'errno' is not defined`
for every caught `OSError`, `EEXIST` included. -/
def createDirIfNotExists (dirExists : Bool) (mkdirs : Option Nat) : FsOutcome :=
  if dirExists then .success
  else
    match mkdirs with
    | none => .success
    | some _ => .raised .nameError

/-- Modelled from the spec: the intended handler (`§7`: "fatal, except
'directory already exists,' which is treated as success"), i.e. what the
source's handler would do if `errno` were imported. -/
def createDirSpec (dirExists : Bool) (mkdirs : Option Nat) : FsOutcome :=
  if dirExists then .success
  else
    match mkdirs with
    | none => .success
    | some e => if e == EEXIST then .success else .raised (.osError e)

/- ----------------------------------------------------------------
   Sessions and entity construction (`Resource.__init__`, `Course.__init__`)
   ---------------------------------------------------------------- -/

/-- The single `Session()` object created when Python evaluates the default
argument of `Resource.__init__(self, url, session=Session())` at class
definition time; shared by every `Resource(...)` call omitting `session`. -/
def resourceDefaultSession : Nat := 0

/-- The single `Session()` default of `Course.__init__`, likewise created
once at class definition time (a distinct object from `Resource`'s). -/
def courseDefaultSession : Nat := 1

/-- `Resource`: url plus owning session (the mutable `__name` / `__response`
state lives in `RState` below). -/
structure Resource where
  url : String
  session : Nat
  deriving DecidableEq, Repr

/-- `Resource.__init__(url, session=Session())`. -/
def Resource.init (url : String) (session : Option Nat) : Resource :=
  ⟨url, session.getD resourceDefaultSession⟩

/-- `Course`: name, url, owning session (the mutable `__soup` /
`__resource_list` state lives in `CState` below). -/
structure Course where
  name : String
  url : String
  session : Nat
  deriving DecidableEq, Repr

/-- `Course.__init__(name='', url='', session=Session())`. -/
def Course.init (name : String) (url : String) (session : Option Nat) : Course :=
  ⟨name, url, session.getD courseDefaultSession⟩

/- ----------------------------------------------------------------
   HTML scraping (`MoodleSession.__get_courses`, `Course.__find_all_resources`)
   ---------------------------------------------------------------- -/

/-- An `<a>` element as the scrapers see it: its `href` attribute (`none`
when absent — BeautifulSoup attribute filters then never match it) and the
texts of its descendant `span` elements in document order (the `.string`
values that a `text=` filter is matched against). -/
structure Anchor where
  href : Option String
  spans : List String
  deriving DecidableEq, Repr

/-- One candidate position of a `re.search` for `lit` followed by `\d+`:
the literal is a prefix of the suffix `l` and is followed by at least one
decimal digit. -/
def litThenDigit (lit l : List Char) : Bool :=
  lit.isPrefixOf l &&
    match l.drop lit.length with
    | d :: _ => d.isDigit
    | [] => false

/-- `re.search` of the pattern `.*LIT\d+` (for a newline-free literal `LIT`):
since the leading `.*` may be empty, the search succeeds iff some suffix of
the subject starts with the literal followed by a digit. -/
def searchFor (lit : List Char) : List Char → Bool
  | [] => false
  | c :: rest => litThenDigit lit (c :: rest) || searchFor lit rest

/-- The local `COURSE_URL_PATTERN = re.compile(r'.*/view\.php\?id=\d+')` of
`MoodleSession.__get_courses`, applied with `re.search` semantics by
BeautifulSoup's attribute filter. -/
def courseUrlSearch (s : String) : Bool :=
  searchFor "/view.php?id=".data s.data

/-- `Course.RESOURCE_URL_PATTERN =
re.compile(r'.*/moodle/mod/resource/view\.php\?id=\d+')`, applied with
`re.search` semantics. -/
def resourceUrlSearch (s : String) : Bool :=
  searchFor "/moodle/mod/resource/view.php?id=".data s.data

/-- Modelled from the spec: the claim's resource-URL shape
`.../mod/resource/view.php?id=<number>`, i.e. without the `/moodle/` path
segment that the source's pattern contains. -/
def resourceUrlSearchSpec (s : String) : Bool :=
  searchFor "/mod/resource/view.php?id=".data s.data

/-- BeautifulSoup `find_all('a', attrs=...)` attribute filtering: an anchor
without the attribute never matches. -/
def hrefMatches (pat : String → Bool) : Option String → Bool
  | none => false
  | some h => pat h

/-- `soup.find_all('a', attrs)` restricted to an href regex: keeps matching
anchors in document order. -/
def findAllAnchors (pat : String → Bool) (doc : List Anchor) : List Anchor :=
  doc.filter (fun a => hrefMatches pat a.href)

/-- Python `\w` (ASCII fragment): letters, digits, underscore. -/
def isWordChar (c : Char) : Bool :=
  c.isAlphanum || c == '_'

/-- `re.search` of `COURSE_CODE = re.compile(r'^\w{4}-\d{3}')`: the `^`
anchor restricts the search to the start of the string, so the text must
begin with four word characters, a hyphen and three digits; anything may
follow. -/
def courseCodeMatch (s : String) : Bool :=
  match s.data with
  | a :: b :: c :: d :: h :: x :: y :: z :: _ =>
    isWordChar a && isWordChar b && isWordChar c && isWordChar d &&
      h == '-' && x.isDigit && y.isDigit && z.isDigit
  | _ => false

/-- `MoodleSession.__get_course_title`: all descendant spans whose text
matches `COURSE_CODE`; `None` if there are none, else the first one's full
`.text`. -/
def getCourseTitle (a : Anchor) : Option String :=
  (a.spans.filter courseCodeMatch).head?

/-- The generator body of `MoodleSession.__get_courses`: one triple
`(element, element['href'], title)` per anchor matching the course URL
pattern.  The attribute access `element['href']` cannot fail after the
filter; `getD ""` is never the taken branch. -/
def coursesTriples (doc : List Anchor) : List (Anchor × String × Option String) :=
  (findAllAnchors courseUrlSearch doc).map
    (fun a => (a, a.href.getD "", getCourseTitle a))

/-- `MoodleSession._remove_non_courses`: keep triples whose title is not
`None` (the `isinstance(..., str)` half always holds for a present title). -/
def removeNonCourses (l : List (Anchor × String × Option String)) :
    List (Anchor × String × Option String) :=
  l.filter (fun t => t.2.2.isSome)

/-- `MoodleSession._generate_courses`: `Course(name=course, url=link,
session=self.__session)` for each surviving triple. -/
def generateCourses (sid : Nat) (l : List (Anchor × String × Option String)) :
    List Course :=
  l.map (fun t => Course.init (t.2.2.getD "") t.2.1 (some sid))

/-- `MoodleSession.__get_courses` after its decorator stack
(`tolist ∘ _generate_courses ∘ _remove_non_courses`). -/
def getCourses (sid : Nat) (doc : List Anchor) : List Course :=
  generateCourses sid (removeNonCourses (coursesTriples doc))

/-- Modelled from the spec (for comparison with `getCourses`): one `Course`
per anchor that matches the course-URL pattern and contains a matching span,
named after the first matching span, in document order, no deduplication. -/
def extractCoursesSpec (sid : Nat) (doc : List Anchor) : List Course :=
  (doc.filter
      (fun a => hrefMatches courseUrlSearch a.href && a.spans.any courseCodeMatch)).map
    (fun a =>
      Course.init ((a.spans.filter courseCodeMatch).headD "") (a.href.getD "") (some sid))

/-- The generator body of `Course.__find_all_resources`: the hrefs of all
anchors matching `RESOURCE_URL_PATTERN`, in document order. -/
def findAllResourceHrefs (doc : List Anchor) : List String :=
  (findAllAnchors resourceUrlSearch doc).map (fun a => a.href.getD "")

/-- `Course._to_resources`: wrap each href as
`Resource(url=href, session=self.session)`. -/
def toResources (sid : Nat) (hrefs : List String) : List Resource :=
  hrefs.map (fun h => Resource.init h (some sid))

/-- `Course.__find_all_resources` after its decorator stack
(`tolist ∘ _to_resources`). -/
def findAllResources (sid : Nat) (doc : List Anchor) : List Resource :=
  toResources sid (findAllResourceHrefs doc)

/- ----------------------------------------------------------------
   Filename derivation (`Resource.__parse_file_name_from_headers`)
   ---------------------------------------------------------------- -/

/-- The zero-width lookbehind of
`filename_pattern = re.compile(r'(?<=filename=").*(?=")')`. -/
def FILENAME_LOOKBEHIND : List Char := "filename=\"".data

/-- Index of the last occurrence of `c` in `l`, if any. -/
def lastIdxOf (c : Char) : List Char → Option Nat
  | [] => none
  | x :: xs =>
    match lastIdxOf c xs with
    | some k => some (k + 1)
    | none => if x == c then some 0 else none

/-- One attempt of the body `.*(?=")` at a fixed position whose remaining
text is `l`: `.` never matches a newline, and the greedy `.*` with the
lookahead succeeds iff some `"` occurs in the newline-free run starting
here; the regex engine keeps the longest such prefix, i.e. everything up to
the last `"` of the run. -/
def dotStarQuote (l : List Char) : Option (List Char) :=
  match lastIdxOf '"' (l.takeWhile (fun c => c != '\n')) with
  | some k => some ((l.takeWhile (fun c => c != '\n')).take k)
  | none => none

/-- One attempt of the whole pattern at a position: the reversed consumed
text must start with the reversed lookbehind literal, then the body runs on
the remaining text. -/
def tryAt (recentRev rest : List Char) : Option (List Char) :=
  if FILENAME_LOOKBEHIND.reverse.isPrefixOf recentRev then dotStarQuote rest else none

/-- `re.findall` scanning for the first match: try each position left to
right (`recentRev` is the reversed consumed text), returning the first
successful attempt.  `Resource.__parse_file_name_from_headers` only uses
`found[0]`, so the first match fully determines its result. -/
def scanFileName (recentRev : List Char) : List Char → Option (List Char)
  | [] => tryAt recentRev []
  | c :: r =>
    match tryAt recentRev (c :: r) with
    | some m => some m
    | none => scanFileName (c :: recentRev) r

/-- First match of `filename_pattern.findall(header)`, as a string. -/
def parseFileName (header : String) : Option String :=
  (scanFileName [] header.data).map String.mk

/-- `Resource.__parse_file_name_from_headers`: reads
`self.response.headers['Content-Disposition']` — a `KeyError` when the
header is absent — then returns `found[0] if len(found) > 0 else None`. -/
def parseFileNameFromHeaders (contentDisposition : Option String) :
    Except PyExn (Option String) :=
  match contentDisposition with
  | none => .error .keyError
  | some h => .ok (parseFileName h)

/- ----------------------------------------------------------------
   Download (`Resource.download`)
   ---------------------------------------------------------------- -/

/-- The `chunk_size=1024*1024*5` argument passed to `iter_content`. -/
def CHUNK_SIZE : Nat := 1024 * 1024 * 5

/-- Python truthiness of an optional string argument (`None` and the empty
string are falsy). -/
def pyTruthyStr : Option String → Bool
  | none => false
  | some s => !(s == "")

/-- `os.path.join(p, s)` for the shapes arising here: an absolute second
component replaces the first, otherwise exactly one separator joins them. -/
def pyJoinPath (p s : String) : String :=
  if s.startsWith "/" then s
  else if p.endsWith "/" then p ++ s
  else p ++ "/" ++ s

/-- Observable result of one `Resource.download` run. -/
structure DownloadOutcome where
  saveAs : String
  written : List (List Nat)
  bytesSaved : Nat
  deriving DecidableEq, Repr

/-- The write loop of `Resource.download`: for each chunk of the streamed
body, skip it when falsy (empty bytes), else write it and add its length to
`bytes_saved`. -/
def downloadStream (chunks : List (List Nat)) : List (List Nat) × Nat :=
  chunks.foldl
    (fun acc c => if c.isEmpty then acc else (acc.1 ++ [c], acc.2 + c.length)) ([], 0)

/-- `Resource.download(prefix_dir, filename)`: `name` is the derived
`self.name`; `save_as = filename if filename else self.name`; a truthy
`prefix_dir` triggers `__create_dir_if_not_exists` (modelled by
`createDirIfNotExists`) and prefixes the path; the body is streamed through
`downloadStream`. -/
def download (name : String) (prefixDir filename : Option String)
    (chunks : List (List Nat)) : DownloadOutcome :=
  let saveAs0 := if pyTruthyStr filename then filename.getD "" else name
  let saveAs :=
    if pyTruthyStr prefixDir then pyJoinPath (prefixDir.getD "") saveAs0 else saveAs0
  let w := downloadStream chunks
  ⟨saveAs, w.1, w.2⟩

/- ----------------------------------------------------------------
   Memoized accessors (`dashboard`, `courses`, `response`, `soup`,
   `resources`) as state machines counting network fetches
   ---------------------------------------------------------------- -/

/-- A `requests.Response`, reduced to its status code. -/
structure Response where
  status : Nat
  deriving DecidableEq, Repr

/-- `requests.models.Response.ok` (hence `Response.__bool__`): false exactly
when `raise_for_status` would raise, i.e. for `400 <= status < 600`. -/
def Response.ok (r : Response) : Bool :=
  decide (r.status < 400 ∨ 600 ≤ r.status)

/-- Mutable state of a `Resource` relevant to the `response` property. -/
structure RState where
  response : Option Response
  fetches : Nat
  deriving DecidableEq, Repr

/-- `Resource.response`: `if not self.__response: self.__response =
self.__session.get(self.url)`.  `None` is falsy, and a stored `Response` is
falsy exactly when it is not `ok` — in both cases a fresh GET (returning
`net`) is performed and counted. -/
def responseStep (net : Response) (st : RState) : Response × RState :=
  match st.response with
  | some r => if r.ok then (r, st) else (net, ⟨some net, st.fetches + 1⟩)
  | none => (net, ⟨some net, st.fetches + 1⟩)

/-- `MoodleSession.Dashboard`, reduced to its parsed anchors.  Instances of
this plain Python class define neither `__bool__` nor `__len__`, so they are
always truthy. -/
structure Dashboard where
  anchors : List Anchor
  deriving DecidableEq, Repr

/-- Mutable state of a `MoodleSession` relevant to `dashboard`/`courses`. -/
structure MSState where
  dashboard : Option Dashboard
  courses : Option (List Course)
  fetches : Nat
  deriving DecidableEq, Repr

/-- `MoodleSession.dashboard`: `if not self.__dashboard: ...` — the cached
`Dashboard` object is always truthy, so only an unset cache fetches. -/
def dashboardStep (page : Dashboard) (st : MSState) : Dashboard × MSState :=
  match st.dashboard with
  | some d => (d, st)
  | none => (page, { st with dashboard := some page, fetches := st.fetches + 1 })

/-- The recomputation path of `MoodleSession.courses`: run `__get_courses`,
which reads `self.dashboard` (memoized) and parses it. -/
def coursesRecompute (sid : Nat) (page : Dashboard) (st : MSState) :
    List Course × MSState :=
  let p := dashboardStep page st
  let cs := getCourses sid p.1.anchors
  (cs, { p.2 with courses := some cs })

/-- `MoodleSession.courses`: `if not self.__courses: ...` — `None` and the
empty list are falsy, so an empty cached course list is recomputed (though
the dashboard it is recomputed from stays cached). -/
def coursesStep (sid : Nat) (page : Dashboard) (st : MSState) :
    List Course × MSState :=
  match st.courses with
  | some cs => if cs.isEmpty then coursesRecompute sid page st else (cs, st)
  | none => coursesRecompute sid page st

/-- A parsed course page (`BeautifulSoup` object): its anchors, plus its
Python truthiness, which bs4 — an external collaborator — derives from the
parsed document, not from this repository's code. -/
structure Soup where
  truthy : Bool
  anchors : List Anchor
  deriving DecidableEq, Repr

/-- Mutable state of a `Course` relevant to `soup`/`resources`. -/
structure CState where
  soup : Option Soup
  resourceList : Option (List Resource)
  fetches : Nat
  deriving DecidableEq, Repr

/-- `Course.soup`: `if not self.__soup: ...` — fetches and parses the course
page when the cache is unset or the cached soup object is falsy. -/
def soupStep (cpage : Soup) (st : CState) : Soup × CState :=
  match st.soup with
  | some s =>
    if s.truthy then (s, st)
    else (cpage, { st with soup := some cpage, fetches := st.fetches + 1 })
  | none => (cpage, { st with soup := some cpage, fetches := st.fetches + 1 })

/-- The recomputation path of `Course.resources`: run
`__find_all_resources`, which reads `self.soup` (memoized). -/
def resourcesRecompute (sid : Nat) (cpage : Soup) (st : CState) :
    List Resource × CState :=
  let p := soupStep cpage st
  let rs := findAllResources sid p.1.anchors
  (rs, { p.2 with resourceList := some rs })

/-- `Course.resources`: `if not self.__resource_list: ...` — `None` and the
empty list are falsy, so an empty cached resource list is recomputed. -/
def resourcesStep (sid : Nat) (cpage : Soup) (st : CState) :
    List Resource × CState :=
  match st.resourceList with
  | some rs => if rs.isEmpty then resourcesRecompute sid cpage st else (rs, st)
  | none => resourcesRecompute sid cpage st

/-- A freshly constructed `MoodleSession` cache state. -/
def freshMS : MSState := ⟨none, none, 0⟩

/-- A freshly constructed `Resource` cache state. -/
def freshR : RState := ⟨none, 0⟩

/-- A freshly constructed `Course` cache state. -/
def freshC : CState := ⟨none, none, 0⟩

/- ----------------------------------------------------------------
   Theorems
   ---------------------------------------------------------------- -/

/-- Helper: the first survivor of a filter exists iff some element matches. -/
theorem head_isSome_filter_eq_any {α : Type} (p : α → Bool) (l : List α) :
    ((l.filter p).head?).isSome = l.any p := by
  rw [List.filter_head?, Bool.eq_iff_iff]
  simp [List.find?_isSome, List.any_eq_true]

/-- Helper: how `__get_courses` treats the head anchor of a document. -/
theorem getCourses_cons (sid : Nat) (a : Anchor) (doc : List Anchor) :
    getCourses sid (a :: doc)
      = (if hrefMatches courseUrlSearch a.href && a.spans.any courseCodeMatch then
          [Course.init ((a.spans.filter courseCodeMatch).head?.getD "")
            (a.href.getD "") (some sid)]
        else []) ++ getCourses sid doc := by
  by_cases hh : hrefMatches courseUrlSearch a.href = true
  · by_cases hs : a.spans.any courseCodeMatch = true
    · have hex : ∃ x ∈ a.spans, courseCodeMatch x = true := List.any_eq_true.mp hs
      simp [getCourses, coursesTriples, removeNonCourses, generateCourses,
            findAllAnchors, List.filter_cons, hh, hs, getCourseTitle, hex]
    · have hnex : ¬∃ x ∈ a.spans, courseCodeMatch x = true := by
        simpa [List.any_eq_true] using hs
      simp [getCourses, coursesTriples, removeNonCourses, generateCourses,
            findAllAnchors, List.filter_cons, hh, hs, getCourseTitle, hnex]
  · simp [getCourses, coursesTriples, removeNonCourses, generateCourses,
          findAllAnchors, List.filter_cons, hh]

/-- Helper: how the spec-side extractor treats the head anchor. -/
theorem extractCoursesSpec_cons (sid : Nat) (a : Anchor) (doc : List Anchor) :
    extractCoursesSpec sid (a :: doc)
      = (if hrefMatches courseUrlSearch a.href && a.spans.any courseCodeMatch then
          [Course.init ((a.spans.filter courseCodeMatch).head?.getD "")
            (a.href.getD "") (some sid)]
        else []) ++ extractCoursesSpec sid doc := by
  by_cases h : (hrefMatches courseUrlSearch a.href && a.spans.any courseCodeMatch) = true
  · simp [extractCoursesSpec, List.filter_cons, h]
  · simp [extractCoursesSpec, List.filter_cons, h]

/-- C2: for every dashboard document, `__get_courses` returns exactly one
`Course` per anchor whose href matches the course-view URL pattern and that
contains a span matching the course-code pattern; the name is the first
matching span's text, results are in document order, duplicates by URL are
kept, and anchors without a matching span are silently dropped (the
extractor is a total function). -/
theorem courses_extraction_spec (sid : Nat) (doc : List Anchor) :
    getCourses sid doc = extractCoursesSpec sid doc := by
  induction doc with
  | nil => rfl
  | cons a doc ih => rw [getCourses_cons, extractCoursesSpec_cons, ih]

/-- C4 counterexample: the href `https://example.com/mod/resource/view.php?id=5`
matches the claim's URL shape `.../mod/resource/view.php?id=<number>`, but
`Course.RESOURCE_URL_PATTERN` additionally requires a `/moodle/` path
segment, so `__find_all_resources` produces no Resource for it. -/
theorem resource_pattern_requires_moodle_segment :
    resourceUrlSearchSpec "https://example.com/mod/resource/view.php?id=5" = true
    ∧ findAllResources 0
        [⟨some "https://example.com/mod/resource/view.php?id=5", []⟩] = [] := by
  constructor
  · decide
  · rfl

/-- C4 (amended): `Course.resources` computes exactly one Resource per anchor
whose href matches the source's pattern `.*/moodle/mod/resource/view\.php\?id=\d+`
(i.e. the claim's shape with the extra `/moodle/` segment), each bound to the
same session id as the Course, in document order, with no deduplication. -/
theorem resources_extraction_spec (sid : Nat) (doc : List Anchor) :
    findAllResources sid doc
      = (doc.filter (fun a => hrefMatches resourceUrlSearch a.href)).map
          (fun a => { url := a.href.getD "", session := sid }) := by
  simp [findAllResources, toResources, findAllResourceHrefs, findAllAnchors,
        List.map_map, Resource.init, Function.comp]

/-- C10: a span whose text begins with the course-code pattern and continues
with arbitrary trailing text is accepted (the regex is only anchored at the
start), and the Course's name is the span's entire text, not just the
8-character code prefix. -/
theorem course_code_prefix_full_text
    (a b c d x y z : Char) (rest : String)
    (ha : isWordChar a = true) (hb : isWordChar b = true)
    (hc : isWordChar c = true) (hd : isWordChar d = true)
    (hx : x.isDigit = true) (hy : y.isDigit = true) (hz : z.isDigit = true) :
    getCourses 7 [⟨some "https://moodle.concordia.ca/moodle/course/view.php?id=42",
        [String.mk (a :: b :: c :: d :: '-' :: x :: y :: z :: rest.data)]⟩]
      = [Course.init (String.mk (a :: b :: c :: d :: '-' :: x :: y :: z :: rest.data))
          "https://moodle.concordia.ca/moodle/course/view.php?id=42" (some 7)] := by
  have hcode :
      courseCodeMatch (String.mk (a :: b :: c :: d :: '-' :: x :: y :: z :: rest.data)) = true := by
    simp [courseCodeMatch, ha, hb, hc, hd, hx, hy, hz]
  have hurl :
      courseUrlSearch "https://moodle.concordia.ca/moodle/course/view.php?id=42" = true := by
    decide
  rw [getCourses_cons]
  simp [hrefMatches, hurl, hcode, getCourses, coursesTriples, removeNonCourses,
        generateCourses, findAllAnchors, List.filter_cons]

/-- C10 witness: the span text `SOEN-363 Software Architecture` yields a
single Course carrying that full text as its name. -/
theorem course_code_prefix_full_text_witness :
    getCourses 7 [⟨some "https://moodle.concordia.ca/moodle/course/view.php?id=42",
        [String.mk ('S' :: 'O' :: 'E' :: 'N' :: '-' :: '3' :: '6' :: '3' :: " Software Architecture".data)]⟩]
      = [Course.init
          (String.mk ('S' :: 'O' :: 'E' :: 'N' :: '-' :: '3' :: '6' :: '3' :: " Software Architecture".data))
          "https://moodle.concordia.ca/moodle/course/view.php?id=42" (some 7)] :=
  course_code_prefix_full_text 'S' 'O' 'E' 'N' '3' '6' '3' " Software Architecture"
    (by decide) (by decide) (by decide) (by decide) (by decide) (by decide) (by decide)

/-- C1 counterexample: the handshake page `[<input name="foo">]` contains no
input carrying a `SAMLResponse` value, yet `__parse_data_for_second_post`
does not fail: it returns form data with `SAMLResponse = None`, which
`__login` then POSTs to the ACS endpoint.  (No `AuthError` class exists
anywhere in the source.) -/
theorem parse_second_post_no_saml_still_posts :
    ([⟨some "foo", none⟩] : List InputTag).all (fun i => !carriesSamlValue i) = true
    ∧ parseDataForSecondPost [⟨some "foo", none⟩]
      = .ok ⟨none, URL_HOME_PAGE⟩ := by
  constructor
  · decide
  · rfl

/-- C1 (amended): `__parse_data_for_second_post` raises `IndexError` (not an
`AuthError`, which the program never defines) when the page has no `<input>`
elements at all; when at least one input exists, it returns — and `__login`
posts — the first input's `value` attribute (possibly `None`) as
`SAMLResponse`, regardless of whether any input actually carries a
`SAMLResponse` value. -/
theorem parse_second_post_spec :
    parseDataForSecondPost [] = .error .indexError
    ∧ ∀ (i : InputTag) (rest : List InputTag),
        parseDataForSecondPost (i :: rest) = .ok ⟨i.value, URL_HOME_PAGE⟩ := by
  exact ⟨rfl, fun i rest => rfl⟩

/-- C6: the claim is right and the code is wrong.  On a creation failure
whose cause is "already exists" (`OSError` with `errno.EEXIST`), the intended
behaviour (per the handler's own comparison and the spec) is success, but the
code raises `NameError` because the `errno` module is never imported; every
other creation failure likewise surfaces `NameError` instead of the original
filesystem error. -/
theorem create_dir_eexist_name_error :
    createDirIfNotExists false (some EEXIST) = .raised .nameError
    ∧ createDirSpec false (some EEXIST) = .success
    ∧ ∀ e : Nat, createDirIfNotExists false (some e) = .raised .nameError := by
  exact ⟨rfl, rfl, fun e => rfl⟩

/-- C9 counterexample: two `Resource`s constructed without an explicit
session share the one default `Session()` object that Python created when it
defined `Resource.__init__` — contradicting "two instances constructed
without an explicit session do not share session state". -/
theorem resource_default_session_shared :
    (Resource.init "http://a" none).session = (Resource.init "http://b" none).session
    ∧ (Resource.init "http://a" none).session = resourceDefaultSession := by
  exact ⟨rfl, rfl⟩

/-- C9 (amended): `Course.__init__` and `Resource.__init__` accept the
session optionally; omitting it silently falls back to the per-class shared
default `Session()` created at class-definition time, so all instances of a
class constructed without an explicit session share one session object.  An
explicitly passed session is stored as given. -/
theorem entity_session_defaults :
    (∀ u1 u2 : String, (Resource.init u1 none).session = (Resource.init u2 none).session)
    ∧ (∀ n1 u1 n2 u2 : String,
        (Course.init n1 u1 none).session = (Course.init n2 u2 none).session)
    ∧ (∀ (u : String) (s : Nat), (Resource.init u (some s)).session = s)
    ∧ (∀ (n u : String) (s : Nat), (Course.init n u (some s)).session = s) := by
  exact ⟨fun u1 u2 => rfl, fun n1 u1 n2 u2 => rfl, fun u s => rfl, fun n u s => rfl⟩

/-- Helper: the write loop accumulates exactly the non-empty chunks and the
sum of their lengths. -/
theorem downloadStream_spec (chunks : List (List Nat)) :
    downloadStream chunks
      = (chunks.filter (fun c => !c.isEmpty),
         ((chunks.filter (fun c => !c.isEmpty)).map List.length).sum) := by
  suffices h : ∀ acc : List (List Nat) × Nat,
      chunks.foldl
          (fun acc c => if c.isEmpty then acc else (acc.1 ++ [c], acc.2 + c.length)) acc
        = (acc.1 ++ chunks.filter (fun c => !c.isEmpty),
           acc.2 + ((chunks.filter (fun c => !c.isEmpty)).map List.length).sum) by
    simpa [downloadStream] using h ([], 0)
  induction chunks with
  | nil => intro acc; simp
  | cons c chunks ih =>
    intro acc
    simp only [List.foldl_cons]
    by_cases hc : c.isEmpty = true
    · have hc' : c = [] := by simpa using hc
      rw [if_pos hc, ih acc, hc']
      simp [List.filter_cons]
    · rw [if_neg hc, ih (acc.1 ++ [c], acc.2 + c.length)]
      have hb : (!c.isEmpty) = true := by simpa using hc
      simp [List.filter_cons, hb, List.append_assoc, Nat.add_assoc]

/-- C5 counterexample: the explicit filename argument `""` is given, yet the
file is saved under the derived name instead — `filename if filename else
self.name` tests Python truthiness, and the empty string is falsy. -/
theorem download_empty_filename_uses_derived :
    (download "doc.pdf" none (some "") [[1], [2]]).saveAs = "doc.pdf"
    ∧ ("doc.pdf" : String) ≠ "" := by
  constructor
  · rfl
  · decide

/-- C5 (amended): `download` streams the body in fixed 5 MiB chunks, writes
exactly the non-empty chunks in order, returns the sum of their sizes, and
saves under the explicit filename when that is given and non-empty,
otherwise (absent or empty filename) under the derived name. -/
theorem download_spec (name : String) (prefixDir filename : Option String)
    (chunks : List (List Nat)) :
    (download name prefixDir filename chunks).bytesSaved
        = ((chunks.filter (fun c => !c.isEmpty)).map List.length).sum
    ∧ (download name prefixDir filename chunks).written
        = chunks.filter (fun c => !c.isEmpty)
    ∧ (∀ f : String, f ≠ "" → (download name none (some f) chunks).saveAs = f)
    ∧ (download name none none chunks).saveAs = name
    ∧ (download name none (some "") chunks).saveAs = name
    ∧ CHUNK_SIZE = 5 * 1024 * 1024 := by
    refine ⟨?_, ?_, ?_, rfl, rfl, rfl⟩
    · simp [download, downloadStream_spec]
    · simp [download, downloadStream_spec]
    · intro f hf
      simp [download, pyTruthyStr, hf]

/-- C5 witness: a concrete run with a non-empty explicit filename. -/
theorem download_spec_witness :
    (download "derived.bin" none (some "notes.pdf") [[7], [], [8, 9]]).saveAs
      = "notes.pdf" :=
  (download_spec "derived.bin" none (some "notes.pdf") [[7], [], [8, 9]]).2.2.1
    "notes.pdf" (by decide)

/-- Helper: `String.mk` undoes `String.data`. -/
theorem string_mk_data (s : String) : String.mk s.data = s := rfl

/-- Helper: an attempt with no consumed text never matches, since the
lookbehind literal is non-empty. -/
theorem tryAt_nil_left (l : List Char) : tryAt [] l = none := rfl

/-- Helper: an attempt whose most recently consumed character is not a quote
never matches, since the lookbehind literal ends in a quote. -/
theorem tryAt_cons_ne {c : Char} (hc : c ≠ '"') (rr l : List Char) :
    tryAt (c :: rr) l = none := by
  have hrev : FILENAME_LOOKBEHIND.reverse = '"' :: "=emanelif".data := rfl
  have hbeq : ('"' == c) = false := beq_eq_false_iff_ne.mpr (Ne.symm hc)
  unfold tryAt
  rw [hrev]
  simp [List.isPrefixOf, hbeq]

/-- Helper: a successful attempt at the current position is the scan's
result. -/
theorem scanFileName_hit {recentRev rest m : List Char}
    (h : tryAt recentRev rest = some m) :
    scanFileName recentRev rest = some m := by
  cases rest with
  | nil => simpa [scanFileName] using h
  | cons c r => simp [scanFileName, h]

/-- Helper: the scan walks through a quote-free chunk without matching. -/
theorem scanFileName_skip (pre : List Char) :
    ∀ (recentRev rest : List Char),
      (∀ c ∈ pre, c ≠ '"') →
      tryAt recentRev (pre ++ rest) = none →
      scanFileName recentRev (pre ++ rest)
        = scanFileName (pre.reverse ++ recentRev) rest := by
  induction pre with
  | nil =>
    intro rr rest h ht
    simp
  | cons c pre ih =>
    intro rr rest h ht
    have hc : c ≠ '"' := h c (List.mem_cons_self c pre)
    have hstep : scanFileName rr (c :: (pre ++ rest))
        = scanFileName (c :: rr) (pre ++ rest) := by
      simp [scanFileName, show tryAt rr (c :: (pre ++ rest)) = none from ht]
    have ih' := ih (c :: rr) rest (fun x hx => h x (List.mem_cons_of_mem c hx))
      (tryAt_cons_ne hc rr (pre ++ rest))
    calc scanFileName rr ((c :: pre) ++ rest)
        = scanFileName (c :: rr) (pre ++ rest) := hstep
      _ = scanFileName (pre.reverse ++ (c :: rr)) rest := ih'
      _ = scanFileName ((c :: pre).reverse ++ rr) rest := by
          simp [List.reverse_cons, List.append_assoc]

/-- Helper: position of the closing quote appended to a quote-free value. -/
theorem lastIdxOf_append_quote (X : List Char) (hq : '"' ∉ X) :
    lastIdxOf '"' (X ++ ['"']) = some X.length := by
  induction X with
  | nil => rfl
  | cons x X ih =>
    have hx : '"' ∉ X := fun h => hq (List.mem_cons_of_mem x h)
    simp [lastIdxOf, ih hx]

/-- Helper: the regex body right after `filename="`, on a quote-free and
newline-free value followed by the closing quote: the greedy `.*` stops
exactly before the closing quote. -/
theorem dotStarQuote_value (X : List Char) (hq : '"' ∉ X) (hn : '\n' ∉ X) :
    dotStarQuote (X ++ ['"']) = some X := by
  have hrun : (X ++ ['"']).takeWhile (fun c => c != '\n') = X ++ ['"'] := by
    rw [List.takeWhile_eq_self_iff]
    intro x hx
    rcases List.mem_append.mp hx with h | h
    · exact bne_iff_ne.mpr (fun he => hn (he ▸ h))
    · simp only [List.mem_singleton] at h
      subst h
      decide
  unfold dotStarQuote
  rw [hrun, lastIdxOf_append_quote X hq]
  simp [List.take_left]

/-- C7 (amended): for every filename `X` containing neither a quote nor a
newline character, the name derived by `__parse_file_name_from_headers` from
the header value `attachment; filename="X"` is exactly `X`.  (A newline in
`X` breaks the round-trip because `.` in the pattern never matches a
newline; see the counterexample.) -/
theorem filename_roundtrip (X : String)
    (hq : '"' ∉ X.data) (hn : '\n' ∉ X.data) :
    parseFileNameFromHeaders (some ("attachment; filename=\"" ++ X ++ "\""))
      = .ok (some X) := by
  have hdata : ("attachment; filename=\"" ++ X ++ "\"").data
      = "attachment; filename=".data ++ ('"' :: (X.data ++ ['"'])) := by
    have h2 : "attachment; filename=\"".data
        = "attachment; filename=".data ++ ['"'] := by decide
    have h3 : ("\"" : String).data = ['"'] := by decide
    rw [String.data_append, String.data_append, h2, h3]
    simp [List.append_assoc]
  show Except.ok (parseFileName ("attachment; filename=\"" ++ X ++ "\""))
      = Except.ok (some X)
  unfold parseFileName
  rw [hdata]
  rw [scanFileName_skip "attachment; filename=".data [] ('"' :: (X.data ++ ['"']))
      (by decide) (tryAt_nil_left _)]
  have hrr : "attachment; filename=".data.reverse ++ ([] : List Char)
      = '=' :: "emanelif ;tnemhcatta".data := by decide
  rw [hrr]
  have hstep : scanFileName ('=' :: "emanelif ;tnemhcatta".data)
        ('"' :: (X.data ++ ['"']))
      = scanFileName ('"' :: '=' :: "emanelif ;tnemhcatta".data)
        (X.data ++ ['"']) := by
    simp [scanFileName, tryAt_cons_ne (by decide : ('=' : Char) ≠ '"') _ _]
  rw [hstep]
  have hpre : FILENAME_LOOKBEHIND.reverse.isPrefixOf
      ('"' :: '=' :: "emanelif ;tnemhcatta".data) = true := by decide
  have hhit : tryAt ('"' :: '=' :: "emanelif ;tnemhcatta".data) (X.data ++ ['"'])
      = some X.data := by
    unfold tryAt
    rw [hpre]
    simp only [if_true]
    exact dotStarQuote_value X.data hq hn
  rw [scanFileName_hit hhit]
  simp [string_mk_data]

/-- C7 witness: the round-trip at the concrete filename `report.pdf`. -/
theorem filename_roundtrip_witness :
    parseFileNameFromHeaders (some ("attachment; filename=\"" ++ "report.pdf" ++ "\""))
      = .ok (some "report.pdf") :=
  filename_roundtrip "report.pdf" (by decide) (by decide)

/-- C7 counterexample: the filename `a\nb` contains no quote character, yet
the derived name is `None`, not `a\nb` — `.` in the extraction pattern does
not match a newline, so no match is found. -/
theorem filename_newline_breaks_roundtrip :
    ('"' ∉ ("a\nb" : String).data)
    ∧ parseFileNameFromHeaders (some "attachment; filename=\"a\nb\"") = .ok none := by
  constructor
  · decide
  · rfl

/-- Helper: scanning text that contains no quote at all never matches (both
the lookbehind and the lookahead need a quote). -/
theorem scanFileName_none_of_no_quote :
    ∀ (rest recentRev : List Char),
      (∀ c ∈ recentRev, c ≠ '"') → (∀ c ∈ rest, c ≠ '"') →
      scanFileName recentRev rest = none := by
  intro rest
  induction rest with
  | nil =>
    intro rr h1 _
    cases rr with
    | nil => rfl
    | cons x rr => exact tryAt_cons_ne (h1 x (List.mem_cons_self x rr)) rr []
  | cons c r ih =>
    intro rr h1 h2
    have hc : c ≠ '"' := h2 c (List.mem_cons_self c r)
    have ht : tryAt rr (c :: r) = none := by
      cases rr with
      | nil => exact tryAt_nil_left _
      | cons x rr => exact tryAt_cons_ne (h1 x (List.mem_cons_self x rr)) rr (c :: r)
    have h1' : ∀ y ∈ (c :: rr), y ≠ '"' := by
      intro y hy
      rcases List.mem_cons.mp hy with h | h
      · exact h ▸ hc
      · exact h1 y h
    have h2' : ∀ y ∈ r, y ≠ '"' := fun y hy => h2 y (List.mem_cons_of_mem c hy)
    simp [scanFileName, ht, ih (c :: rr) h1' h2']

/-- C8 counterexample: with the `Content-Disposition` header absent, the
name derivation raises `KeyError` (`self.response.headers['Content-Disposition']`)
instead of resolving to an empty/null value without exception. -/
theorem header_absent_raises_keyerror :
    parseFileNameFromHeaders none = .error .keyError
    ∧ ∀ v : Option String, parseFileNameFromHeaders none ≠ .ok v := by
  refine ⟨rfl, fun v h => Except.noConfusion h⟩

/-- C8 (amended): an absent `Content-Disposition` header makes the name
derivation raise `KeyError`; a present header that contains no quote
character (hence no quoted `filename="..."` part) makes the derived name
resolve to `None` without any exception. -/
theorem header_name_fallback (X : String) (h : ∀ c ∈ X.data, c ≠ '"') :
    parseFileNameFromHeaders none = .error .keyError
    ∧ parseFileNameFromHeaders (some X) = .ok none := by
  refine ⟨rfl, ?_⟩
  show Except.ok (parseFileName X) = Except.ok none
  unfold parseFileName
  rw [scanFileName_none_of_no_quote X.data []
    (fun c hc => absurd hc (List.not_mem_nil c)) h]
  rfl

/-- C8 witness: the quoteless header value `attachment` yields `None`. -/
theorem header_name_fallback_witness :
    parseFileNameFromHeaders (some "attachment") = .ok none :=
  (header_name_fallback "attachment" (by decide)).2

/-- C3 counterexample: a `Resource` whose GET returns HTTP 404.  The cached
`Response` is falsy (`Response.__bool__` is `ok`, false for status 400–599),
so `if not self.__response` re-runs the GET: two accesses to `response`
perform two network fetches, although the first call did produce a result. -/
theorem response_not_ok_refetches :
    (responseStep ⟨404⟩ (responseStep ⟨404⟩ freshR).2).2.fetches = 2 := rfl

/-- C3 (amended): `dashboard` is truly memoized — one fetch across two
calls, the second returning the cached value; `courses` performs at most one
fetch across two calls even when the course list is empty, because the
recomputation re-reads the memoized dashboard; `response` is memoized
provided the fetched response is `ok` — a non-ok cached response is falsy in
Python and is fetched again on the next access; `resources` performs one
fetch across two calls provided the parsed page object is truthy, even when
the resource list is empty (an empty list is recomputed, but from the cached
page). -/
theorem memoized_accessors_spec (sid : Nat) (page : Dashboard) (net : Response)
    (cpage : Soup) (hok : net.ok = true) (htr : cpage.truthy = true) :
    ((dashboardStep page (dashboardStep page freshMS).2).2.fetches = 1
      ∧ (dashboardStep page (dashboardStep page freshMS).2).1
          = (dashboardStep page freshMS).1)
    ∧ ((coursesStep sid page (coursesStep sid page freshMS).2).2.fetches = 1
      ∧ (coursesStep sid page (coursesStep sid page freshMS).2).1
          = (coursesStep sid page freshMS).1)
    ∧ ((responseStep net (responseStep net freshR).2).2.fetches = 1
      ∧ (responseStep net (responseStep net freshR).2).1
          = (responseStep net freshR).1)
    ∧ ((resourcesStep sid cpage (resourcesStep sid cpage freshC).2).2.fetches = 1
      ∧ (resourcesStep sid cpage (resourcesStep sid cpage freshC).2).1
          = (resourcesStep sid cpage freshC).1) := by
  refine ⟨⟨rfl, rfl⟩, ?_, ?_, ?_⟩
  · by_cases hcs : (getCourses sid page.anchors).isEmpty = true
    · constructor <;>
        simp [coursesStep, coursesRecompute, dashboardStep, freshMS, hcs]
    · constructor <;>
        simp [coursesStep, coursesRecompute, dashboardStep, freshMS, hcs]
  · constructor <;> simp [responseStep, freshR, hok]
  · by_cases hrs : (findAllResources sid cpage.anchors).isEmpty = true
    · constructor <;>
        simp [resourcesStep, resourcesRecompute, soupStep, freshC, hrs, htr]
    · constructor <;>
        simp [resourcesStep, resourcesRecompute, soupStep, freshC, hrs, htr]

/-- C3 witness: concrete instantiation with an OK response (status 200) and
a truthy parsed page. -/
theorem memoized_accessors_spec_witness :
    (Response.mk 200).ok = true
    ∧ (Soup.mk true []).truthy = true
    ∧ (responseStep ⟨200⟩ (responseStep ⟨200⟩ freshR).2).2.fetches = 1
    ∧ (coursesStep 0 ⟨[]⟩ (coursesStep 0 ⟨[]⟩ freshMS).2).2.fetches = 1 :=
  ⟨by decide, rfl,
   ((memoized_accessors_spec 0 ⟨[]⟩ ⟨200⟩ ⟨true, []⟩ (by decide) rfl).2.2.1).1,
   ((memoized_accessors_spec 0 ⟨[]⟩ ⟨200⟩ ⟨true, []⟩ (by decide) rfl).2.1).1⟩
